import Mathlib

/-!
Shallow embedding of `extract_repo_info.py` (codeclimate/github_repo_stats).

The script's HTTP layer is modelled by scripting the network: a run of
`run_request` consumes a list of `Response`s, one per `requests.get` call,
in order.  Python's `None` return, raised exceptions (`AssertionError`,
`KeyError`/`ValueError` from header parsing) and returned JSON values are
distinguished by the `Outcome` type.  The CSV ledger is modelled over an
association-list file system.
-/

namespace GithubRepoStats

/-- A parsed JSON body.  `arr` is a list-shaped body; `obj` is any non-list
JSON value, carrying its Python truthiness (e.g. an empty dict is falsy). -/
inductive Body (α : Type) where
  | arr (items : List α)
  | obj (val : α) (truthy : Bool)
deriving DecidableEq

/-- Python truthiness of a parsed body: a list is truthy iff non-empty. -/
def Body.isTruthy {α : Type} : Body α → Bool
  | .arr xs => !xs.isEmpty
  | .obj _ t => t

/-- One HTTP response as seen by the script: status code, parsed JSON body,
the `"next"` pagination link (from `response.links`), and the three
rate-limit headers as raw strings (`none` = header absent). -/
structure Response (α : Type) where
  status : Nat
  body : Body α
  nextLink : Option String
  hLimit : Option String
  hRemaining : Option String
  hReset : Option String
deriving DecidableEq

def MAX_NB_RETRIES : Nat := 20
def RETRY_SLEEP_DEFAULT : Int := 5
def MIN_RATE_LIMIT_REMAINING : Int := 10

/-- Decimal digit value of a character, if it is a digit. -/
def digitVal (c : Char) : Option Nat :=
  if '0' ≤ c ∧ c ≤ '9' then some (c.toNat - '0'.toNat) else none

/-- A non-empty all-digit run read into a natural number. -/
def parseDigits (cs : List Char) (acc : Nat) : Option Nat :=
  match cs with
  | [] => some acc
  | c :: rest =>
    match digitVal c with
    | some d => parseDigits rest (acc * 10 + d)
    | none => none

/-- Model of Python `int(s)` on decimal strings: an optional leading minus
sign followed by one or more digits; anything else raises (`none`). -/
def parseInt (s : String) : Option Int :=
  match s.data with
  | '-' :: c :: rest => (parseDigits (c :: rest) 0).map (fun n => -(n : Int))
  | c :: rest => (parseDigits (c :: rest) 0).map (fun n => (n : Int))
  | [] => none

/-- Python string comparison: lexicographic on code points. -/
def lexLe : List Char → List Char → Bool
  | [], _ => true
  | _ :: _, [] => false
  | a :: as, b :: bs => if a = b then lexLe as bs else decide (a < b)

def strLe (a b : String) : Bool := lexLe a.data b.data

def insertSorted (x : String) : List String → List String
  | [] => [x]
  | y :: ys => if strLe x y then x :: y :: ys else y :: insertSorted x ys

/-- Model of Python `sorted(...)` on strings: insertion sort by `strLe`. -/
def sortStrings : List String → List String
  | [] => []
  | x :: xs => insertSorted x (sortStrings xs)

/-- `_sleep_duration(failed_response)`: reads the three rate-limit headers and
parses each with `int(...)`; `none` models the raised `KeyError`/`ValueError`
when a header is missing or not an integer string.  Otherwise: below the
remaining floor, sleep `reset - now`; else the fixed default. -/
def _sleep_duration {α : Type} (failed_response : Response α) (now : Int) :
    Option Int :=
  match failed_response.hLimit.bind parseInt,
        failed_response.hRemaining.bind parseInt,
        failed_response.hReset.bind parseInt with
  | some _, some rate_limit_remaining, some rate_limit_reset_date =>
      if rate_limit_remaining < MIN_RATE_LIMIT_REMAINING then
        some (rate_limit_reset_date - now)
      else
        some RETRY_SLEEP_DEFAULT
  | _, _, _ => none

/-- What a call of `run_request` observably produces.  `ok b` is a returned
JSON value, `noData` the `None` returned on 204, `exhausted codes` the `None`
returned after the retry ceiling (with the logged set of distinct failing
status codes, in first-seen order), `assertionError` a failed `assert`,
`headerError` an uncaught header `KeyError`/`ValueError`, `sleepValueError`
the `ValueError` CPython's `time.sleep` raises on a negative duration, and
`streamEnded` is the model artifact of running out of scripted responses. -/
inductive Outcome (α : Type) where
  | ok (b : Body α)
  | noData
  | exhausted (codes : List Nat)
  | assertionError
  | headerError
  | sleepValueError
  | streamEnded
deriving DecidableEq

/-- The Python return value of an outcome: `none` if an exception propagates
(or the script ran out), `some none` for Python `None`, `some (some b)` for a
returned body `b`. -/
def Outcome.toReturn {α : Type} : Outcome α → Option (Option (Body α))
  | .ok b => some (some b)
  | .noData => some none
  | .exhausted _ => some none
  | .assertionError => none
  | .headerError => none
  | .sleepValueError => none
  | .streamEnded => none

/-- `failure_status_codes.add(c)` on a set kept as a dedup-insert list. -/
def insertCode (codes : List Nat) (c : Nat) : List Nat :=
  if c ∈ codes then codes else codes ++ [c]

/-- The `while failure_count < MAX_NB_RETRIES` loop of `run_request`,
consuming scripted responses.  Returns the outcome and the responses left
unconsumed (so `attempts made = initial length - remaining length`).
`time.sleep(_sleep_duration(raw_results))` raises a `ValueError` when the
computed duration is negative (CPython rejects negative sleeps), modelled by
the `sleepValueError` outcome; on a non-negative duration the sleep
completes and the loop retries.  The 200 branch is
`_process_successful_result`, inlined here so the recursion is structural on
the response stream; the named definition below is proved to coincide with
it. -/
def run_request_go {α : Type} (responses : List (Response α))
    (is_paginated : Bool) (failure_count : Nat) (codes : List Nat)
    (now : Int) : Outcome α × List (Response α) :=
  if MAX_NB_RETRIES ≤ failure_count then (.exhausted codes, responses)
  else
    match responses with
    | [] => (.streamEnded, [])
    | r :: rest =>
      if r.status = 200 then
        if is_paginated && r.nextLink.isSome then
          match r.body with
          | .obj _ _ => (.assertionError, rest)
          | .arr json_results =>
            let res := run_request_go rest is_paginated 0 [] now
            match res.1.toReturn with
            | none => (res.1, res.2)
            | some none => (.ok (.arr json_results), res.2)
            | some (some additional_results) =>
                if additional_results.isTruthy then
                  match additional_results with
                  | .arr more => (.ok (.arr (json_results ++ more)), res.2)
                  | .obj _ _ => (.assertionError, res.2)
                else (.ok (.arr json_results), res.2)
        else (.ok r.body, rest)
      else if r.status = 204 then (.noData, rest)
      else
        match _sleep_duration r now with
        | none => (.headerError, rest)
        | some d =>
            if d < 0 then (.sleepValueError, rest)
            else
              run_request_go rest is_paginated (failure_count + 1)
                (insertCode codes r.status) now

/-- `_process_successful_result`: on a 200 response, if paginated and a
`"next"` link is declared, assert the body is a list, recursively fetch the
next page, and extend with the additional results when they are truthy
(a truthy non-list additional result trips the second assert).  Otherwise
return the parsed body as-is. -/
def _process_successful_result {α : Type} (successful_response : Response α)
    (rest : List (Response α)) (is_paginated : Bool) (now : Int) :
    Outcome α × List (Response α) :=
  if is_paginated && successful_response.nextLink.isSome then
    match successful_response.body with
    | .obj _ _ => (.assertionError, rest)
    | .arr json_results =>
      let res := run_request_go rest is_paginated 0 [] now
      match res.1.toReturn with
      | none => (res.1, res.2)
      | some none => (.ok (.arr json_results), res.2)
      | some (some additional_results) =>
          if additional_results.isTruthy then
            match additional_results with
            | .arr more => (.ok (.arr (json_results ++ more)), res.2)
            | .obj _ _ => (.assertionError, res.2)
          else (.ok (.arr json_results), res.2)
  else (.ok successful_response.body, rest)

/-- `run_request(url, headers, is_paginated)` on a scripted list of
responses: runs the retry loop with a fresh failure count and code set. -/
def run_request {α : Type} (responses : List (Response α))
    (is_paginated : Bool) (now : Int) : Outcome α × List (Response α) :=
  run_request_go responses is_paginated 0 [] now

/-- A well-formed paginated trace: each page is a 200 list-shaped response,
carrying a `"next"` link on every page but the last. -/
def mkPage {α : Type} (xs : List α) (next : Bool) : Response α :=
  ⟨200, .arr xs, if next then some "next" else none, none, none, none⟩

def mkPages {α : Type} : List (List α) → List (Response α)
  | [] => []
  | [xs] => [mkPage xs false]
  | xs :: rest :: rests => mkPage xs true :: mkPages (rest :: rests)

/-! ### The CSV ledger -/

/-- A CSV file: a list of rows, each a list of string fields (the first row,
when present, is the header written by `start_repo_csv`). -/
abbrev CsvFile := List (List String)

/-- The file system visible to the script: paths mapped to CSV files. -/
abbrev FileSystem := List (String × CsvFile)

def lookupFile (fs : FileSystem) (p : String) : Option CsvFile :=
  (fs.find? (fun e => e.1 == p)).map Prod.snd

/-- Replace the file at `p`, or create it at the end if absent. -/
def writeFile (fs : FileSystem) (p : String) (f : CsvFile) : FileSystem :=
  match fs with
  | [] => [(p, f)]
  | e :: rest => if e.1 = p then (p, f) :: rest else e :: writeFile rest p f

structure Repo where
  name : String
  id : Int
  size : Int
  full_name : String
deriving DecidableEq

/-- The output unit, matching the `RepoRow` named tuple field for field. -/
structure RepoRow where
  repo_name : String
  repo_id : Int
  repo_size : Int
  last_3_weeks_commit_count : Int
  last_52_weeks_commit_count : Int
  contributor_count : Nat
  contributor_handles : String
  team_names : String
deriving DecidableEq

/-- `RepoRow._fields`, in declaration order. -/
def field_names : List String :=
  ["repo_name", "repo_id", "repo_size", "last_3_weeks_commit_count",
   "last_52_weeks_commit_count", "contributor_count", "contributor_handles",
   "team_names"]

/-- Python `lst[-n:]`: the last `n` elements (the whole list when shorter). -/
def lastN (n : Nat) (l : List Int) : List Int := l.drop (l.length - n)

/-- `build_repo_row(repo, repo_contributors, repo_stats, teams)`.
Contributors are reduced to their login handles, the team map to
`(slug, member logins)` pairs, and `repo_stats` to its `"all"` list of 52
weekly commit counts (`none` when the stats fetch returned `None`). -/
def build_repo_row (repo : Repo) (repo_contributors : List String)
    (repo_stats : Option (List Int))
    (member_logins_by_team_slug : List (String × List String)) : RepoRow :=
  let repo_contributor_logins := repo_contributors.dedup
  let teams := ((member_logins_by_team_slug.filter
      (fun tm => !(repo_contributor_logins.inter tm.2).isEmpty)).map
        Prod.fst).dedup
  { repo_name := repo.name
    repo_id := repo.id
    repo_size := repo.size
    last_3_weeks_commit_count :=
      match repo_stats with
      | some all => (lastN 3 all).sum
      | none => 0
    last_52_weeks_commit_count :=
      match repo_stats with
      | some all => (lastN 52 all).sum
      | none => 0
    contributor_count := repo_contributor_logins.length
    contributor_handles :=
      String.intercalate ", " (sortStrings repo_contributor_logins)
    team_names := String.intercalate ", " (sortStrings teams) }

/-- `start_repo_csv(filepath)`: `open(filepath, "x")` fails with
`FileExistsError` (return `False`, file system untouched) when the path
exists; otherwise creates the file holding only the header row. -/
def start_repo_csv (fs : FileSystem) (filepath : String) : Bool × FileSystem :=
  match lookupFile fs filepath with
  | some _ => (false, fs)
  | none => (true, writeFile fs filepath [field_names])

/-- The CSV fields `DictWriter` writes for a row, in `_fields` order. -/
def rowFields (row : RepoRow) : List String :=
  [row.repo_name, toString row.repo_id, toString row.repo_size,
   toString row.last_3_weeks_commit_count,
   toString row.last_52_weeks_commit_count, toString row.contributor_count,
   row.contributor_handles, row.team_names]

/-- `write_repo_row(filepath, row)`: open in append mode (creating the file
when absent) and write the single row. -/
def write_repo_row (fs : FileSystem) (filepath : String) (row : RepoRow) :
    FileSystem :=
  match lookupFile fs filepath with
  | some f => writeFile fs filepath (f ++ [rowFields row])
  | none => writeFile fs filepath [rowFields row]

/-- Result of `get_repo_ids_from_csv`: `notFound` models the `None` returned
on `FileNotFoundError`; `err` a propagated `KeyError` (no `repo_id` column
while data rows exist) or `ValueError` (non-empty, non-integer id field);
`ids` the returned set. -/
inductive CsvReadResult where
  | notFound
  | err
  | ids (s : Finset Int)
deriving DecidableEq

/-- One step of the set comprehension: `none` models a `ValueError` from
`int(...)`; `some none` a row skipped because its id field is falsy
(empty/missing); `some (some n)` a parsed id. -/
def parseIdField (idx : Nat) (row : List String) : Option (Option Int) :=
  let v := row.getD idx ""
  if v = "" then some none
  else
    match parseInt v with
    | some n => some (some n)
    | none => none

def readIdsAux (idx : Nat) : List (List String) → Option (Finset Int)
  | [] => some ∅
  | row :: rest =>
    match parseIdField idx row with
    | none => none
    | some none => readIdsAux idx rest
    | some (some n) => (readIdsAux idx rest).map (insert n)

/-- `get_repo_ids_from_csv(filepath)`: `None` when the file does not exist,
otherwise the set `{int(row["repo_id"]) for row in reader if row["repo_id"]}`
over the data rows (the rows after the header `DictReader` consumes). -/
def get_repo_ids_from_csv (fs : FileSystem) (filepath : String) :
    CsvReadResult :=
  match lookupFile fs filepath with
  | none => .notFound
  | some [] => .ids ∅
  | some (_ :: []) => .ids ∅
  | some (header :: rows) =>
    match header.indexOf? "repo_id" with
    | none => .err
    | some idx =>
      match readIdsAux idx rows with
      | none => .err
      | some s => .ids s

/-- The per-repository loop of `__main__`: skip ids already recorded,
otherwise fetch contributors and stats, build the row and append it.  The
network is abstracted by `contribOf` (the `get_contributors(...) or []`
result) and `statsOf` (the `get_participation_stats(...)` result). -/
def main_loop (repos : List Repo) (previously_processed_repo_ids : Finset Int)
    (contribOf : Repo → List String) (statsOf : Repo → Option (List Int))
    (member_logins_by_team_slug : List (String × List String))
    (fs : FileSystem) (filepath : String) : FileSystem :=
  match repos with
  | [] => fs
  | repo :: rest =>
    if repo.id ∈ previously_processed_repo_ids then
      main_loop rest previously_processed_repo_ids contribOf statsOf
        member_logins_by_team_slug fs filepath
    else
      main_loop rest previously_processed_repo_ids contribOf statsOf
        member_logins_by_team_slug
        (write_repo_row fs filepath
          (build_repo_row repo (contribOf repo) (statsOf repo)
            member_logins_by_team_slug))
        filepath

/-! ### Lemmas about the retry loop -/

/-- A failing response the retry path can survive: neither 200 nor 204, the
three rate-limit headers parse (per §6 of the external interface, the
platform exposes all three as integers on every response), and the computed
sleep duration is non-negative, so `time.sleep` completes instead of raising
`ValueError`. -/
def FailingValid {α : Type} (r : Response α) (now : Int) : Prop :=
  r.status ≠ 200 ∧ r.status ≠ 204 ∧
    ∃ d, _sleep_duration r now = some d ∧ 0 ≤ d

instance {α : Type} (r : Response α) (now : Int) :
    Decidable (FailingValid r now) :=
  decidable_of_iff
    (r.status ≠ 200 ∧ r.status ≠ 204 ∧
      0 ≤ (_sleep_duration r now).getD (-1)) (by
    unfold FailingValid
    refine and_congr_right fun _ => and_congr_right fun _ => ?_
    cases hd : _sleep_duration r now with
    | none => simp
    | some d => simp)

theorem go_exhausted {α : Type} (rs : List (Response α)) (p : Bool) (c : Nat)
    (codes : List Nat) (now : Int) (h : MAX_NB_RETRIES ≤ c) :
    run_request_go rs p c codes now = (.exhausted codes, rs) := by
  unfold run_request_go
  simp [h]

theorem go_200 {α : Type} (r : Response α) (rest : List (Response α))
    (p : Bool) (c : Nat) (codes : List Nat) (now : Int)
    (hc : c < MAX_NB_RETRIES) (h : r.status = 200) :
    run_request_go (r :: rest) p c codes now =
      _process_successful_result r rest p now := by
  conv_lhs => unfold run_request_go
  unfold _process_successful_result
  simp [Nat.not_le.mpr hc, h]

theorem go_204 {α : Type} (r : Response α) (rest : List (Response α))
    (p : Bool) (c : Nat) (codes : List Nat) (now : Int)
    (hc : c < MAX_NB_RETRIES) (h : r.status = 204) :
    run_request_go (r :: rest) p c codes now = (.noData, rest) := by
  conv_lhs => unfold run_request_go
  simp [Nat.not_le.mpr hc, h]

theorem go_fail_step {α : Type} (r : Response α) (rest : List (Response α))
    (p : Bool) (c : Nat) (codes : List Nat) (now : Int)
    (hc : c < MAX_NB_RETRIES) (h200 : r.status ≠ 200) (h204 : r.status ≠ 204)
    (d : Int) (hd : _sleep_duration r now = some d) (h0 : 0 ≤ d) :
    run_request_go (r :: rest) p c codes now =
      run_request_go rest p (c + 1) (insertCode codes r.status) now := by
  conv_lhs => unfold run_request_go
  simp [Nat.not_le.mpr hc, h200, h204, hd, not_lt.mpr h0]

/-- A failing response whose computed sleep is negative stops the run with
the `ValueError` raised by `time.sleep`. -/
theorem go_negative_sleep {α : Type} (r : Response α)
    (rest : List (Response α)) (p : Bool) (c : Nat) (codes : List Nat)
    (now : Int) (hc : c < MAX_NB_RETRIES) (h200 : r.status ≠ 200)
    (h204 : r.status ≠ 204) (d : Int)
    (hd : _sleep_duration r now = some d) (hneg : d < 0) :
    run_request_go (r :: rest) p c codes now = (.sleepValueError, rest) := by
  conv_lhs => unfold run_request_go
  simp [Nat.not_le.mpr hc, h200, h204, hd, hneg]

theorem go_header_error {α : Type} (r : Response α) (rest : List (Response α))
    (p : Bool) (c : Nat) (codes : List Nat) (now : Int)
    (hc : c < MAX_NB_RETRIES) (h200 : r.status ≠ 200) (h204 : r.status ≠ 204)
    (hd : _sleep_duration r now = none) :
    run_request_go (r :: rest) p c codes now = (.headerError, rest) := by
  conv_lhs => unfold run_request_go
  simp [Nat.not_le.mpr hc, h200, h204, hd]

/-- Running the loop through a block of failing responses advances the
failure count and the recorded status-code set, consuming exactly the
block. -/
theorem go_fail_block {α : Type} (fails : List (Response α))
    (rest : List (Response α)) (p : Bool) (c : Nat) (codes : List Nat)
    (now : Int) (hall : ∀ r ∈ fails, FailingValid r now)
    (hle : c + fails.length ≤ MAX_NB_RETRIES) :
    run_request_go (fails ++ rest) p c codes now =
      run_request_go rest p (c + fails.length)
        (fails.foldl (fun cs r => insertCode cs r.status) codes) now := by
  induction fails generalizing c codes with
  | nil => simp
  | cons r fs ih =>
    obtain ⟨h200, h204, d, hd, h0⟩ := hall r (List.mem_cons_self r fs)
    simp only [List.length_cons] at hle
    rw [List.cons_append,
      go_fail_step r (fs ++ rest) p c codes now (by omega) h200 h204 d hd h0,
      ih (c + 1) (insertCode codes r.status)
        (fun x hx => hall x (List.mem_cons_of_mem r hx)) (by omega)]
    simp only [List.foldl_cons, List.length_cons]
    congr 1
    omega

/-! ### Claim theorems -/

/-- Claim C1: for every sequence of paginated HTTP 200 responses ending in a
page with no `"next"` link, `run_request` with `is_paginated = true` returns
the concatenation of each page's items in fetch order (current-page items
followed by next-page items), consuming the whole trace. -/
theorem pagination_concatenates {α : Type} (pages : List (List α)) (now : Int)
    (h : pages ≠ []) :
    run_request (mkPages pages) true now = (.ok (.arr pages.flatten), []) := by
  induction pages with
  | nil => exact absurd rfl h
  | cons xs rest ih =>
    cases rest with
    | nil =>
      rw [show mkPages [xs] = [mkPage xs false] from rfl, run_request,
        go_200 _ _ _ _ _ _ (by decide) rfl]
      simp [_process_successful_result, mkPage]
    | cons y ys =>
      rw [show mkPages (xs :: y :: ys) = mkPage xs true :: mkPages (y :: ys)
          from rfl,
        run_request, go_200 _ _ _ _ _ _ (by decide) rfl]
      have hrec := ih (by simp)
      unfold _process_successful_result
      rw [show run_request_go (mkPages (y :: ys)) true 0 [] now =
          run_request (mkPages (y :: ys)) true now from rfl, hrec]
      by_cases hJ : (y :: ys).flatten = [] <;>
        simp [mkPage, Outcome.toReturn, Body.isTruthy, hJ]

/-- Claim C1 witness: a three-page trace concatenates in order. -/
theorem pagination_concatenates_witness :
    ([[1, 2], [3], [4, 5]] : List (List Nat)) ≠ [] ∧
    run_request (mkPages [[1, 2], [3], [4, 5]]) true 0 =
      (.ok (.arr [1, 2, 3, 4, 5]), []) :=
  ⟨by decide, pagination_concatenates [[1, 2], [3], [4, 5]] 0 (by decide)⟩

/-- Claim C2: with every failed response carrying parseable rate-limit
headers (the external interface of §6), a run receiving only non-200/204
statuses makes exactly `MAX_NB_RETRIES = 20` HTTP attempts (consuming
exactly 20 responses) and then reports failure with the distinct status
codes seen; if attempt `k ≤ 20` receives 204 or 200, exactly `k` attempts
are made (`k - 1` failures followed by the success) and the loop stops
there, handing a 200 to `_process_successful_result`. -/
theorem retry_ceiling {α : Type} (fails : List (Response α)) (r : Response α)
    (rest : List (Response α)) (p : Bool) (now : Int)
    (hall : ∀ x ∈ fails, FailingValid x now) :
    (fails.length = MAX_NB_RETRIES →
      run_request (fails ++ rest) p now =
        (.exhausted (fails.foldl (fun cs x => insertCode cs x.status) []),
          rest)) ∧
    (fails.length + 1 ≤ MAX_NB_RETRIES →
      (r.status = 204 →
        run_request (fails ++ r :: rest) p now = (.noData, rest)) ∧
      (r.status = 200 →
        run_request (fails ++ r :: rest) p now =
          _process_successful_result r rest p now) ∧
      (r.status = 200 → p = false ∨ r.nextLink = none →
        run_request (fails ++ r :: rest) p now = (.ok r.body, rest))) := by
  refine ⟨fun hlen => ?_,
    fun hlen => ⟨fun h204 => ?_, fun h200 => ?_, fun h200 hnl => ?_⟩⟩
  · rw [run_request, go_fail_block fails rest p 0 [] now hall (by omega),
      go_exhausted _ _ _ _ _ (by omega)]
  · rw [run_request, go_fail_block fails (r :: rest) p 0 [] now hall
      (by omega), go_204 _ _ _ _ _ _ (by omega) h204]
  · rw [run_request, go_fail_block fails (r :: rest) p 0 [] now hall
      (by omega), go_200 _ _ _ _ _ _ (by omega) h200]
  · rw [run_request, go_fail_block fails (r :: rest) p 0 [] now hall
      (by omega), go_200 _ _ _ _ _ _ (by omega) h200]
    unfold _process_successful_result
    rcases hnl with hp | hn
    · simp [hp]
    · simp [hn]

def c2fail : Response Nat :=
  ⟨500, .obj 0 true, none, some "60", some "50", some "1000"⟩

def c2noContent : Response Nat := ⟨204, .obj 0 false, none, none, none, none⟩

def c2okPage : Response Nat := ⟨200, .arr [7], none, none, none, none⟩

/-- Claim C2 witness: twenty 500s exhaust in exactly 20 attempts; four 500s
then a 204 (resp. a 200 last page) stop after exactly 5 attempts. -/
theorem retry_ceiling_witness :
    run_request (List.replicate 20 c2fail ++ ([] : List (Response Nat)))
        true 0 =
      (.exhausted ((List.replicate 20 c2fail).foldl
        (fun cs x => insertCode cs x.status) []), []) ∧
    run_request (List.replicate 4 c2fail ++ c2noContent ::
        ([] : List (Response Nat))) true 0 = (.noData, []) ∧
    run_request (List.replicate 4 c2fail ++ c2okPage ::
        ([] : List (Response Nat))) true 0 = (.ok c2okPage.body, []) :=
  ⟨(retry_ceiling (List.replicate 20 c2fail) c2noContent [] true 0
      (by decide)).1 (by decide),
   ((retry_ceiling (List.replicate 4 c2fail) c2noContent [] true 0
      (by decide)).2 (by decide)).1 (by decide),
   ((retry_ceiling (List.replicate 4 c2fail) c2okPage [] true 0
      (by decide)).2 (by decide)).2.2 (by decide) (by decide)⟩

/-- Claim C3 counterexample: a failed response with remaining quota 0
(below the floor), reset epoch 100, at current time 200, sleeps
`100 - 200 = -100` seconds: the value is negative, not clamped to 0. -/
theorem sleep_duration_not_clamped :
    _sleep_duration (α := Nat)
        ⟨500, .obj 0 true, none, some "60", some "0", some "100"⟩ 200 =
      some (-100) ∧ (-100 : Int) < 0 := by decide

/-- Claim C3 (amended): for every failed response whose headers parse, with
remaining quota at least the floor of 10 the sleep duration is the fixed
default of 5 seconds; with remaining quota below 10 it is exactly
`reset - now`, which the code does not clamp and which may be negative. -/
theorem sleep_duration_policy {α : Type} (r : Response α) (now : Int)
    (lim rem res : Int) (hl : r.hLimit.bind parseInt = some lim)
    (hr : r.hRemaining.bind parseInt = some rem)
    (he : r.hReset.bind parseInt = some res) :
    (MIN_RATE_LIMIT_REMAINING ≤ rem →
      _sleep_duration r now = some RETRY_SLEEP_DEFAULT) ∧
    (rem < MIN_RATE_LIMIT_REMAINING →
      _sleep_duration r now = some (res - now)) := by
  unfold _sleep_duration
  rw [hl, hr, he]
  constructor <;> intro h
  · simp [not_lt.mpr h]
  · simp [h]

/-- Claim C3 witness: remaining 50 of 60 sleeps the default 5; remaining 0
sleeps `1000 - 300 = 700`. -/
theorem sleep_duration_policy_witness :
    _sleep_duration (α := Nat)
        ⟨500, .obj 0 true, none, some "60", some "50", some "1000"⟩ 300 =
      some RETRY_SLEEP_DEFAULT ∧
    _sleep_duration (α := Nat)
        ⟨500, .obj 0 true, none, some "60", some "0", some "1000"⟩ 300 =
      some (1000 - 300) :=
  ⟨(sleep_duration_policy
      ⟨500, .obj 0 true, none, some "60", some "50", some "1000"⟩ 300
      60 50 1000 (by decide) (by decide) (by decide)).1 (by decide),
   (sleep_duration_policy
      ⟨500, .obj 0 true, none, some "60", some "0", some "1000"⟩ 300
      60 0 1000 (by decide) (by decide) (by decide)).2 (by decide)⟩

/-- Claim C4 counterexample: a paginated 200 page with items `[1, 2]` and a
`"next"` link, followed by twenty failing responses, exhausts the retries on
the next page — yet `run_request` returns the first page's items `[1, 2]`
(a proper prefix of the pages' items) rather than a failure signal. -/
theorem mid_pagination_items_returned :
    run_request (mkPage [1, 2] true :: List.replicate 20 c2fail) true 0 =
      (Outcome.ok (.arr [1, 2]), []) ∧
    ∀ codes, (Outcome.ok (Body.arr [1, 2]) : Outcome Nat) ≠
      .exhausted codes :=
  ⟨by decide, fun _ h => Outcome.noConfusion h⟩

/-- Claim C4 (amended): when the *initial* request's retries are exhausted,
`run_request` reports failure with no partial results; but when exhaustion
occurs while fetching a `"next"` page mid-pagination, the falsy `None` from
the inner call makes the outer call return the items fetched so far — a
prefix, not a failure. -/
theorem exhaustion_top_level_vs_mid_pagination {α : Type}
    (fails : List (Response α)) (xs : List α) (rest : List (Response α))
    (p : Bool) (now : Int) (hall : ∀ x ∈ fails, FailingValid x now)
    (hlen : fails.length = MAX_NB_RETRIES) :
    run_request (fails ++ rest) p now =
      (.exhausted (fails.foldl (fun cs x => insertCode cs x.status) []),
        rest) ∧
    run_request (mkPage xs true :: (fails ++ rest)) true now =
      (.ok (.arr xs), rest) := by
  have hex : run_request (fails ++ rest) p now =
      (.exhausted (fails.foldl (fun cs x => insertCode cs x.status) []),
        rest) := by
    rw [run_request, go_fail_block fails rest p 0 [] now hall (by omega),
      go_exhausted _ _ _ _ _ (by omega)]
  have hex' : run_request_go (fails ++ rest) true 0 [] now =
      (.exhausted (fails.foldl (fun cs x => insertCode cs x.status) []),
        rest) := by
    rw [go_fail_block fails rest true 0 [] now hall (by omega),
      go_exhausted _ _ _ _ _ (by omega)]
  refine ⟨hex, ?_⟩
  rw [run_request, go_200 _ _ _ _ _ _ (by decide) rfl]
  unfold _process_successful_result
  rw [show run_request_go (fails ++ rest) true 0 [] now =
      (.exhausted (fails.foldl (fun cs x => insertCode cs x.status) []),
        rest) from hex']
  simp [mkPage, Outcome.toReturn]

/-- Claim C4 witness: twenty 500s exhaust with no items; a `[9]` page then
twenty 500s returns the prefix `[9]`. -/
theorem exhaustion_top_level_vs_mid_pagination_witness :
    run_request (List.replicate 20 c2fail ++ ([] : List (Response Nat)))
        true 0 =
      (.exhausted ((List.replicate 20 c2fail).foldl
        (fun cs x => insertCode cs x.status) []), []) ∧
    run_request (mkPage [9] true :: (List.replicate 20 c2fail ++ []))
        true 0 = (.ok (.arr [9]), []) :=
  exhaustion_top_level_vs_mid_pagination (List.replicate 20 c2fail) [9] []
    true 0 (by decide) (by decide)

/-! ### Lemmas about the ledger -/

theorem lookupFile_writeFile (fs : FileSystem) (p : String) (f : CsvFile) :
    lookupFile (writeFile fs p f) p = some f := by
  induction fs with
  | nil => simp [writeFile, lookupFile]
  | cons e rest ih =>
    by_cases h : e.1 = p
    · simp [writeFile, lookupFile, h]
    · simp only [writeFile, if_neg h]
      simpa [lookupFile, List.find?_cons, h] using ih

theorem write_repo_row_existing (fs : FileSystem) (filepath : String)
    (row : RepoRow) (f : CsvFile) (hf : lookupFile fs filepath = some f) :
    write_repo_row fs filepath row =
      writeFile fs filepath (f ++ [rowFields row]) := by
  unfold write_repo_row
  rw [hf]

/-- Claim C5: an append-only run over fetched repositories `repos`, with the
ids `prev` already recorded, appends to the output file exactly one row for
each repository whose id is not in `prev` — in fetch order, none for ids in
`prev` — and touches nothing else of the file's prior contents. -/
theorem append_only_run (repos : List Repo) (prev : Finset Int)
    (contribOf : Repo → List String) (statsOf : Repo → Option (List Int))
    (teams : List (String × List String)) (fs : FileSystem)
    (filepath : String) (file0 : CsvFile)
    (hfile : lookupFile fs filepath = some file0) :
    lookupFile (main_loop repos prev contribOf statsOf teams fs filepath)
        filepath =
      some (file0 ++ (repos.filter (fun r => decide (r.id ∉ prev))).map
        (fun r => rowFields (build_repo_row r (contribOf r) (statsOf r)
          teams))) := by
  induction repos generalizing fs file0 with
  | nil => simpa [main_loop] using hfile
  | cons repo rest ih =>
    by_cases h : repo.id ∈ prev
    · rw [show main_loop (repo :: rest) prev contribOf statsOf teams fs
          filepath = main_loop rest prev contribOf statsOf teams fs filepath
          from by simp [main_loop, h]]
      simp [ih fs file0 hfile, List.filter_cons, h]
    · rw [show main_loop (repo :: rest) prev contribOf statsOf teams fs
          filepath = main_loop rest prev contribOf statsOf teams
            (write_repo_row fs filepath
              (build_repo_row repo (contribOf repo) (statsOf repo) teams))
            filepath
          from by simp [main_loop, h]]
      rw [ih (write_repo_row fs filepath
          (build_repo_row repo (contribOf repo) (statsOf repo) teams))
          (file0 ++ [rowFields (build_repo_row repo (contribOf repo)
            (statsOf repo) teams)])
          (by rw [write_repo_row_existing fs filepath _ file0 hfile,
            lookupFile_writeFile])]
      simp [List.filter_cons, h]

def c5repos : List Repo :=
  [⟨"a", 1, 10, "o/a"⟩, ⟨"b", 2, 20, "o/b"⟩, ⟨"c", 3, 30, "o/c"⟩,
   ⟨"d", 4, 40, "o/d"⟩]

/-- Claim C5 witness: ids `{1, 2, 3}` already recorded and fetched list
`{1, 2, 3, 4}` — exactly one new row is appended, for id 4. -/
theorem append_only_run_witness :
    lookupFile (main_loop c5repos {1, 2, 3} (fun _ => []) (fun _ => none) []
        [("out.csv", [field_names])] "out.csv") "out.csv" =
      some ([field_names] ++
        [rowFields (build_repo_row ⟨"d", 4, 40, "o/d"⟩ [] none [])]) := by
  rw [append_only_run c5repos {1, 2, 3} (fun _ => []) (fun _ => none) []
    [("out.csv", [field_names])] "out.csv" [field_names] (by decide)]
  rfl

/-- Claim C6: `start_repo_csv` fails (returns `false`) and leaves the file
system unchanged whenever a file already exists at the path; on a fresh path
it succeeds, writes exactly the header row naming every `RepoRow` field in
order, and a second call on the same path then fails without modifying the
file written by the first. -/
theorem start_repo_csv_spec (fs : FileSystem) (filepath : String) :
    (∀ f, lookupFile fs filepath = some f →
      start_repo_csv fs filepath = (false, fs)) ∧
    (lookupFile fs filepath = none →
      (start_repo_csv fs filepath).1 = true ∧
      lookupFile (start_repo_csv fs filepath).2 filepath =
        some [field_names] ∧
      start_repo_csv (start_repo_csv fs filepath).2 filepath =
        (false, (start_repo_csv fs filepath).2)) := by
  constructor
  · intro f hf
    unfold start_repo_csv
    rw [hf]
  · intro hn
    have h1 : start_repo_csv fs filepath =
        (true, writeFile fs filepath [field_names]) := by
      unfold start_repo_csv
      rw [hn]
    refine ⟨by rw [h1], by rw [h1, lookupFile_writeFile], ?_⟩
    rw [h1]
    unfold start_repo_csv
    rw [lookupFile_writeFile]

/-- Claim C6 witness: on path `"a.csv"` occupied by a one-row file the call
fails and changes nothing; on the fresh path `"b.csv"` the first call
succeeds writing the header and the second call fails without modifying. -/
theorem start_repo_csv_spec_witness :
    start_repo_csv [("a.csv", [["x"]])] "a.csv" =
      (false, [("a.csv", [["x"]])]) ∧
    ((start_repo_csv [("a.csv", [["x"]])] "b.csv").1 = true ∧
      lookupFile (start_repo_csv [("a.csv", [["x"]])] "b.csv").2 "b.csv" =
        some [field_names] ∧
      start_repo_csv (start_repo_csv [("a.csv", [["x"]])] "b.csv").2
          "b.csv" =
        (false, (start_repo_csv [("a.csv", [["x"]])] "b.csv").2)) :=
  ⟨(start_repo_csv_spec [("a.csv", [["x"]])] "a.csv").1 [["x"]] (by decide),
   (start_repo_csv_spec [("a.csv", [["x"]])] "b.csv").2 (by decide)⟩

/-- Membership in the id set computed over the data rows: exactly the
integers parsed from a non-empty id field of some row. -/
theorem readIdsAux_mem (idx : Nat) (rows : List (List String))
    (s : Finset Int) (h : readIdsAux idx rows = some s) (n : Int) :
    n ∈ s ↔ ∃ row ∈ rows, parseIdField idx row = some (some n) := by
  induction rows generalizing s with
  | nil =>
    simp only [readIdsAux, Option.some.injEq] at h
    subst h
    simp
  | cons row rest ih =>
    unfold readIdsAux at h
    cases hp : parseIdField idx row with
    | none => rw [hp] at h; exact absurd h (by simp)
    | some o =>
      cases o with
      | none =>
        rw [hp] at h
        rw [ih s h]
        simp [hp]
      | some m =>
        rw [hp] at h
        cases hr : readIdsAux idx rest with
        | none => rw [hr] at h; exact absurd h (by simp)
        | some s' =>
          rw [hr] at h
          simp only [Option.map_some', Option.some.injEq] at h
          subst h
          constructor
          · intro hm
            rcases Finset.mem_insert.mp hm with h | h
            · exact ⟨row, List.mem_cons_self row rest, by rw [hp, h]⟩
            · obtain ⟨r, hmem, hpr⟩ := (ih s' hr).mp h
              exact ⟨r, List.mem_cons_of_mem row hmem, hpr⟩
          · rintro ⟨r, hmem, hpr⟩
            rcases List.mem_cons.mp hmem with h | h
            · subst h
              rw [hp] at hpr
              have hmn : m = n := by
                injection hpr with h1
                injection h1
              exact Finset.mem_insert.mpr (Or.inl hmn.symm)
            · exact Finset.mem_insert.mpr
                (Or.inr ((ih s' hr).mpr ⟨r, h, hpr⟩))

theorem get_ne_notFound (fs : FileSystem) (p : String) (f : CsvFile)
    (hf : lookupFile fs p = some f) :
    get_repo_ids_from_csv fs p ≠ .notFound := by
  unfold get_repo_ids_from_csv
  rw [hf]
  match f with
  | [] => simp
  | [h] => simp
  | h :: r :: rs =>
    show (match h.indexOf? "repo_id" with
        | none => CsvReadResult.err
        | some i =>
          match readIdsAux i (r :: rs) with
          | none => CsvReadResult.err
          | some t => CsvReadResult.ids t) ≠ CsvReadResult.notFound
    cases h.indexOf? "repo_id" with
    | none => simp
    | some i =>
      show (match readIdsAux i (r :: rs) with
          | none => CsvReadResult.err
          | some t => CsvReadResult.ids t) ≠ CsvReadResult.notFound
      cases hri : readIdsAux i (r :: rs) with
      | none => simp
      | some t => simp

/-- Claim C7: `get_repo_ids_from_csv` returns the not-found signal exactly
when no file exists at the path; an existing header-only file yields the
empty id set (distinct from not-found); and for a file whose data rows all
parse, it yields exactly the set of integers read from the `repo_id`
column. -/
theorem get_repo_ids_spec (fs : FileSystem) (filepath : String) :
    (get_repo_ids_from_csv fs filepath = .notFound ↔
      lookupFile fs filepath = none) ∧
    (∀ header, lookupFile fs filepath = some [header] →
      get_repo_ids_from_csv fs filepath = .ids ∅) ∧
    (∀ s, CsvReadResult.ids s ≠ .notFound) ∧
    (∀ header rows idx s, lookupFile fs filepath = some (header :: rows) →
      header.indexOf? "repo_id" = some idx →
      readIdsAux idx rows = some s →
      get_repo_ids_from_csv fs filepath = .ids s ∧
      ∀ n : Int, n ∈ s ↔
        ∃ row ∈ rows, parseIdField idx row = some (some n)) := by
  refine ⟨⟨fun hnf => ?_, fun hn => ?_⟩, fun header hf => ?_,
    fun s h => by simp at h, fun header rows idx s hf hidx hread => ?_⟩
  · by_contra hsome
    obtain ⟨f, hf⟩ := Option.ne_none_iff_exists'.mp hsome
    exact get_ne_notFound fs filepath f hf hnf
  · unfold get_repo_ids_from_csv
    rw [hn]
  · unfold get_repo_ids_from_csv
    rw [hf]
  · refine ⟨?_, fun n => readIdsAux_mem idx rows s hread n⟩
    unfold get_repo_ids_from_csv
    rw [hf]
    cases rows with
    | nil =>
      simp only [readIdsAux, Option.some.injEq] at hread
      subst hread
      rfl
    | cons r rs =>
      show (match header.indexOf? "repo_id" with
          | none => CsvReadResult.err
          | some i =>
            match readIdsAux i (r :: rs) with
            | none => CsvReadResult.err
            | some t => CsvReadResult.ids t) = CsvReadResult.ids s
      rw [hidx]
      show (match readIdsAux idx (r :: rs) with
          | none => CsvReadResult.err
          | some t => CsvReadResult.ids t) = CsvReadResult.ids s
      rw [hread]

def c7file : CsvFile :=
  [field_names,
   ["a", "1", "10", "0", "0", "0", "", ""],
   ["b", "", "20", "0", "0", "0", "", ""],
   ["c", "-2", "30", "0", "0", "0", "", ""]]

/-- Claim C7 witness: a missing path gives the not-found signal; a
header-only file gives the empty set; a file with data rows `1`, a skipped
empty id, and `-2` gives exactly `{1, -2}`, containing `1` and not `7`. -/
theorem get_repo_ids_spec_witness :
    get_repo_ids_from_csv [] "out.csv" = .notFound ∧
    get_repo_ids_from_csv [("out.csv", [field_names])] "out.csv" =
      .ids ∅ ∧
    get_repo_ids_from_csv [("out.csv", c7file)] "out.csv" =
      .ids {1, -2} ∧
    ((1 : Int) ∈ ({1, -2} : Finset Int) ↔
      ∃ row ∈ c7file.tail, parseIdField 1 row = some (some 1)) ∧
    ((7 : Int) ∈ ({1, -2} : Finset Int) ↔
      ∃ row ∈ c7file.tail, parseIdField 1 row = some (some 7)) :=
  ⟨(get_repo_ids_spec [] "out.csv").1.mpr (by decide),
   (get_repo_ids_spec [("out.csv", [field_names])] "out.csv").2.1
     field_names (by decide),
   ((get_repo_ids_spec [("out.csv", c7file)] "out.csv").2.2.2
     field_names c7file.tail 1 {1, -2} (by decide) (by decide)
     (by decide)).1,
   ((get_repo_ids_spec [("out.csv", c7file)] "out.csv").2.2.2
     field_names c7file.tail 1 {1, -2} (by decide) (by decide)
     (by decide)).2 1,
   ((get_repo_ids_spec [("out.csv", c7file)] "out.csv").2.2.2
     field_names c7file.tail 1 {1, -2} (by decide) (by decide)
     (by decide)).2 7⟩

/-- Claim C8: a repository whose participation stats are absent (204/`None`)
gets a row with 3-week and 52-week commit counts equal to 0, and the row is
still written by the loop; with stats present the 3-week count is the sum of
the last 3 weekly entries and the 52-week count the sum of the last 52. -/
theorem absent_stats_zero_counts (repo : Repo) (contribs : List String)
    (teams : List (String × List String)) (stats : List Int)
    (prev : Finset Int) (contribOf : Repo → List String)
    (statsOf : Repo → Option (List Int)) (fs : FileSystem)
    (filepath : String) :
    (build_repo_row repo contribs none teams).last_3_weeks_commit_count
      = 0 ∧
    (build_repo_row repo contribs none teams).last_52_weeks_commit_count
      = 0 ∧
    (build_repo_row repo contribs (some stats)
      teams).last_3_weeks_commit_count = (lastN 3 stats).sum ∧
    (build_repo_row repo contribs (some stats)
      teams).last_52_weeks_commit_count = (lastN 52 stats).sum ∧
    main_loop [repo] prev contribOf statsOf teams fs filepath =
      (if repo.id ∈ prev then fs
       else write_repo_row fs filepath
         (build_repo_row repo (contribOf repo) (statsOf repo) teams)) := by
  refine ⟨rfl, rfl, rfl, rfl, ?_⟩
  by_cases h : repo.id ∈ prev <;> simp [main_loop, h]

/-- Claim C9 counterexample: a paginated request answered by a single 200
response whose body is not list-shaped but which carries no `"next"` link is
returned silently — no assertion fires, contradicting the claimed fail-fast
behaviour "including when the response carries no next link". -/
theorem nonlist_without_next_silent :
    run_request
        [(⟨200, .obj 7 true, none, none, none, none⟩ : Response Nat)]
        true 0 = (.ok (.obj 7 true), []) ∧
    (Outcome.ok (Body.obj 7 true) : Outcome Nat) ≠ .assertionError := by
  decide

/-- Claim C9 (amended): on a paginated request, a 200 response with a
non-list body fails fast via the assertion exactly when it declares a
`"next"` link; with no `"next"` link the non-list body is silently returned
as the result. -/
theorem paginated_nonlist_assertion {α : Type} (r : Response α)
    (rest : List (Response α)) (now : Int) (v : α) (t : Bool)
    (h200 : r.status = 200) (hbody : r.body = .obj v t) :
    (r.nextLink.isSome = true →
      run_request (r :: rest) true now = (.assertionError, rest)) ∧
    (r.nextLink = none →
      run_request (r :: rest) true now = (.ok (.obj v t), rest)) := by
  constructor <;> intro h <;>
    rw [run_request, go_200 _ _ _ _ _ _ (by decide) h200] <;>
    unfold _process_successful_result <;> simp [h, hbody]

/-- Claim C9 witness: with a `"next"` link the non-list body asserts; the
no-link case is the counterexample above. -/
theorem paginated_nonlist_assertion_witness :
    run_request
        [(⟨200, .obj 7 true, some "n", none, none, none⟩ : Response Nat)]
        true 0 = (.assertionError, []) ∧
    run_request
        [(⟨200, .obj 8 true, none, none, none, none⟩ : Response Nat)]
        true 0 = (.ok (.obj 8 true), []) :=
  ⟨(paginated_nonlist_assertion
      ⟨200, .obj 7 true, some "n", none, none, none⟩ [] 0 7 true rfl
      rfl).1 (by decide),
   (paginated_nonlist_assertion
      ⟨200, .obj 8 true, none, none, none, none⟩ [] 0 8 true rfl
      rfl).2 (by decide)⟩

theorem insertCode_nil (c : Nat) : insertCode [] c = [c] := by
  simp [insertCode]

/-- Claim C10: on every failed (non-200/204) response the retry path reads
the three rate-limit headers and parses them as integers before sleeping:
the parse fails exactly when one of limit, remaining, reset is missing or
not an integer string; in that case the run raises (header error) instead
of retrying; when all three parse and the computed duration is
non-negative, the loop records the status code and retries with one more
failure — and when the computed duration is negative the run raises the
`ValueError` of `time.sleep` instead, so retry-with-backoff is total only
under the stated header precondition. -/
theorem retry_header_requirement {α : Type} (r : Response α)
    (rest : List (Response α)) (p : Bool) (now : Int)
    (h200 : r.status ≠ 200) (h204 : r.status ≠ 204) :
    (_sleep_duration r now = none ↔
      r.hLimit.bind parseInt = none ∨ r.hRemaining.bind parseInt = none ∨
        r.hReset.bind parseInt = none) ∧
    (_sleep_duration r now = none →
      run_request (r :: rest) p now = (.headerError, rest)) ∧
    (∀ d, _sleep_duration r now = some d → 0 ≤ d →
      run_request (r :: rest) p now =
        run_request_go rest p 1 [r.status] now) ∧
    (∀ d, _sleep_duration r now = some d → d < 0 →
      run_request (r :: rest) p now = (.sleepValueError, rest)) := by
  refine ⟨?_, fun hn => ?_, fun d hd h0 => ?_, fun d hd hneg =>
    go_negative_sleep r rest p 0 [] now (by decide) h200 h204 d hd hneg⟩
  · unfold _sleep_duration
    rcases hl : r.hLimit.bind parseInt with _ | l <;>
      rcases hm : r.hRemaining.bind parseInt with _ | m <;>
        rcases he : r.hReset.bind parseInt with _ | e <;> simp
    split_ifs <;> simp
  · exact go_header_error r rest p 0 [] now (by decide) h200 h204 hn
  · rw [run_request,
      go_fail_step r rest p 0 [] now (by decide) h200 h204 d hd h0,
      insertCode_nil]

/-- Claim C10 witness: a 500 missing its limit header (the others fine)
raises; the same response with all three headers and a non-negative sleep
retries; a 500 whose reset epoch lies before `now` raises the `ValueError`
of the negative sleep. -/
theorem retry_header_requirement_witness :
    (_sleep_duration
        (⟨500, .obj 0 true, none, none, some "50", some "90"⟩ :
          Response Nat) 0 = none ↔
      (none : Option String).bind parseInt = none ∨
        (some "50").bind parseInt = none ∨
        (some "90").bind parseInt = none) ∧
    run_request
        [(⟨500, .obj 0 true, none, none, some "50", some "90"⟩ :
          Response Nat)] true 0 = (.headerError, []) ∧
    run_request [c2fail] true 0 = run_request_go [] true 1 [500] 0 ∧
    run_request
        [(⟨500, .obj 0 true, none, some "60", some "0", some "100"⟩ :
          Response Nat)] true 200 = (.sleepValueError, []) :=
  ⟨(retry_header_requirement
      ⟨500, .obj 0 true, none, none, some "50", some "90"⟩ [] true 0
      (by decide) (by decide)).1,
   (retry_header_requirement
      ⟨500, .obj 0 true, none, none, some "50", some "90"⟩ [] true 0
      (by decide) (by decide)).2.1 (by decide),
   (retry_header_requirement c2fail [] true 0 (by decide)
      (by decide)).2.2.1 5 (by decide) (by decide),
   (retry_header_requirement
      ⟨500, .obj 0 true, none, some "60", some "0", some "100"⟩ [] true 200
      (by decide) (by decide)).2.2.2 (-100) (by decide) (by decide)⟩

end GithubRepoStats
